import Mathlib

/-!
Shallow embedding of the concurrent ICF (Informed Consent Form) generation
pipeline of the Vibe-Clinical-Trials backend, covering:

- the context retriever (DocumentGenerator.get_protocol_context in
  backend/app/services/document_generator.py),
- the streaming section generator
  (StreamingICFWorkflow._create_section_generator in the same file),
- the coordinator drain loop
  (ICFGenerationService.generate_icf_streaming in
  backend/app/services/icf_service.py),
- the synchronous fold (_generate_icf_sync composed with WorkflowBase.invoke),
- and the two SSE endpoints (generate_icf_stream and regenerate_icf_section
  in backend/app/api/icf_generation.py).

Modelling conventions: similarity scores are rationals; the language-model
client is an oracle pair (a token-streaming call and a non-streaming
fallback call); the shared asyncio queue of one run is modelled by the list
of events that arrive on it, in arrival order, and a timeout of the drain
loop's 60-second wait is modelled by the queue list being exhausted while
the loop still needs events.
-/

namespace VibeICF

/-- A scored hit returned by the vector index client
(qdrant_client.search): payload text, similarity score, chunk index. -/
structure Hit where
  text : String
  score : Rat
  chunk_index : Nat
deriving Repr, DecidableEq

/-- A context item as built by DocumentGenerator.get_protocol_context. -/
structure ContextItem where
  text : String
  score : Rat
  chunk_index : Nat
deriving Repr, DecidableEq

/-- The vector index search oracle: collection name, query text and
candidate count to scored hits, or a search failure. -/
abbrev SearchFn := String → String → Nat → Except String (List Hit)

/-- Embedding of DocumentGenerator.get_protocol_context
(document_generator.py lines 70 to 105): searches the named collection with
a candidate limit of 10, keeps hits whose score is at least min_score in
the order the index returned them, and wraps a search failure into a
DocumentGenerationError message. -/
def get_protocol_context (search : SearchFn) (collection query : String)
    (min_score : Rat) : Except String (List ContextItem) :=
  match search collection query 10 with
  | Except.error e => Except.error ("Failed to retrieve context: " ++ e)
  | Except.ok hits =>
      Except.ok ((hits.filter (fun h => min_score ≤ h.score)).map
        (fun h => { text := h.text, score := h.score, chunk_index := h.chunk_index }))

/-- The queue/stream events of one generation run, as the tagged dicts the
source pushes: the section generators push section_start, token,
section_complete and section_error; the coordinator emits complete; the
tagged dict of kind error is the fatal coordinator-level event (timeout or
workflow failure).  The generation_time_seconds field of the source's
complete dict is wall-clock data and is omitted. -/
inductive Event where
  | section_start (section_name : String)
  | token (section_name : String) (content : String) (accumulated_content : String)
  | section_complete (section_name : String) (content : String)
  | section_error (section_name : String) (error : String)
  | complete (total_sections : Nat) (completed_sections : Nat) (errors : List String)
  | error (error : String)
deriving Repr, DecidableEq

/-- The section an event belongs to, when it is a per-section event. -/
def eventSection : Event → Option String
  | Event.section_start n => some n
  | Event.token n _ _ => some n
  | Event.section_complete n _ => some n
  | Event.section_error n _ => some n
  | Event.complete _ _ _ => none
  | Event.error _ => none

/-- Is this a section_complete event? -/
def isSC : Event → Bool
  | Event.section_complete _ _ => true
  | _ => false

/-- Is this a section_error event? -/
def isSE : Event → Bool
  | Event.section_error _ _ => true
  | _ => false

/-- Is this a token event? -/
def isToken : Event → Bool
  | Event.token _ _ _ => true
  | _ => false

/-- Is this a section_start event? -/
def isStart : Event → Bool
  | Event.section_start _ => true
  | _ => false

/-- Is this the coordinator-level complete event? -/
def isCompleteEv : Event → Bool
  | Event.complete _ _ _ => true
  | _ => false

/-- Is this a fatal coordinator-level error event? -/
def isFatal : Event → Bool
  | Event.error _ => true
  | _ => false

/-- Terminal event of one section: section_complete or section_error. -/
def isTerminal (e : Event) : Bool := isSC e || isSE e

/-- Outcome of one token-streaming model call: the text deltas yielded, and
whether the stream raised after yielding them. -/
structure StreamOutcome where
  chunks : List String
  fails : Bool

/-- The per-section inputs of one run of a streaming section generator: the
outcome of its context retrieval, and the two model-client oracles (the
token-streaming call and the non-streaming fallback), each taking the
system prompt and the user message. -/
structure SectionInputs where
  retrieval : Except String (List ContextItem)
  llmStream : String → String → StreamOutcome
  llmInvoke : String → String → Except String String

/-- The context block of the streaming section generator
(document_generator.py lines 508 to 510): the top three retrieved texts
joined with blank lines, or a per-section placeholder when retrieval
returned nothing. -/
def contextTextOf (section_name : String) (items : List ContextItem) : String :=
  if items.isEmpty then "No specific context for " ++ section_name
  else String.intercalate "\n\n" ((items.take 3).map (fun i => i.text))

/-- The user turn of the model input (document_generator.py line 519). -/
def mkUserMessage (context_text section_name : String) : String :=
  "Context: " ++ context_text ++ "\n\nGenerate the " ++ section_name ++ " section."

/-- The token events pushed by the streaming loop of a section generator
(document_generator.py lines 539 to 561): each truthy (non-empty) delta is
appended to the running buffer and emitted with the buffer so far; empty
deltas are skipped. -/
def tokenEvents (section_name : String) : String → List String → List Event
  | _, [] => []
  | acc, c :: rest =>
      if c = "" then tokenEvents section_name acc rest
      else Event.token section_name c (acc ++ c) :: tokenEvents section_name (acc ++ c) rest

/-- The running buffer after consuming a chunk list, mirroring the
accumulation of section_content in the same loop. -/
def accumulate : String → List String → String
  | acc, [] => acc
  | acc, c :: rest => if c = "" then accumulate acc rest else accumulate (acc ++ c) rest

/-- Flatten a list of strings by concatenation. -/
def concatAll (l : List String) : String := l.foldr (fun a b => a ++ b) ""

/-- The content (delta) fields of the token events of a trace, in order. -/
def tokenContents (l : List Event) : List String :=
  l.filterMap (fun e => match e with
    | Event.token _ c _ => some c
    | _ => none)

/-- Embedding of one run of a streaming section generator
(StreamingICFWorkflow._create_section_generator, document_generator.py
lines 488 to 637).  Returns the events it pushes to the shared queue, in
push order, together with the list of (system prompt, user message)
arguments of its calls to the non-streaming fallback.  Faithful points: the
context retrieval happens before section_start is pushed, so a retrieval
failure yields a lone section_error; a streaming failure falls back to the
single non-streaming call with the same messages, replacing the
accumulated buffer; a fallback failure is caught by the outer handler which
pushes section_error. -/
def generateSection (section_name system_prompt : String) (inp : SectionInputs) :
    List Event × List (String × String) :=
  match inp.retrieval with
  | Except.error e => ([Event.section_error section_name e], [])
  | Except.ok items =>
      let user := mkUserMessage (contextTextOf section_name items) section_name
      let so := inp.llmStream system_prompt user
      let toks := tokenEvents section_name "" so.chunks
      if so.fails then
        match inp.llmInvoke system_prompt user with
        | Except.ok content =>
            (Event.section_start section_name :: toks ++
              [Event.section_complete section_name content],
             [(system_prompt, user)])
        | Except.error e =>
            (Event.section_start section_name :: toks ++
              [Event.section_error section_name
                ("Failed to generate " ++ section_name ++ ": " ++ e)],
             [(system_prompt, user)])
      else
        (Event.section_start section_name :: toks ++
          [Event.section_complete section_name (accumulate "" so.chunks)], [])

/-- The timeout message of the drain loop (icf_service.py line 185). -/
def timeoutMessage : String := "Generation timeout - LLM taking too long to respond"

/-- The initial broad retrieval query of generate_icf_streaming
(icf_service.py line 133). -/
def initialQuery : String :=
  "informed consent form requirements eligibility procedures risks benefits"

/-- Embedding of the drain loop of ICFGenerationService.generate_icf_streaming
(icf_service.py lines 166 to 187): waits for queue events while fewer than
total sections are counted as completed; a section_complete increments the
counter, a fatal error event sets the counter to total (stop on error), any
other event (including section_error) leaves the counter unchanged; every
received event is yielded; exhausting the queue while the loop still waits
is the 60-second timeout, which yields the timeout error and breaks.
Returns the yielded events and the final counter value. -/
def drainEvents (total completed : Nat) (incoming : List Event) : List Event × Nat :=
  if total ≤ completed then ([], completed)
  else
    match incoming with
    | [] => ([Event.error timeoutMessage], completed)
    | e :: rest =>
        let completed' :=
          match e with
          | Event.section_complete _ _ => completed + 1
          | Event.error _ => total
          | _ => completed
        let next := drainEvents total completed' rest
        (e :: next.1, next.2)

/-- Embedding of ICFGenerationService.generate_icf_streaming
(icf_service.py lines 86 to 223): performs the initial broad context
retrieval (a failure there is caught by the outer handler, which yields a
single fatal error event), then drains the shared queue with
total_sections hard-coded to 7, and finally always yields a complete event
carrying the counter value and an empty errors list. -/
def generate_icf_streaming (search : SearchFn) (collection : String)
    (incoming : List Event) : List Event :=
  match get_protocol_context search collection initialQuery (mkRat 3 10) with
  | Except.error e => [Event.error ("Generation failed: " ++ e)]
  | Except.ok _ =>
      let d := drainEvents 7 0 incoming
      d.1 ++ [Event.complete 7 d.2 []]

/-- The SSE events serialized by the API layer (icf_generation.py):
each service event is wrapped into an event-discriminated payload;
section_complete additionally carries a word count. -/
inductive SSE where
  | section_start (section_name : String)
  | token (section_name : String) (content : String) (accumulated_content : String)
  | section_complete (section_name : String) (content : String) (word_count : Nat)
  | section_error (section_name : String) (error : String)
  | complete (total_sections : Nat) (completed_sections : Nat) (errors : List String)
  | error (msg : String)
deriving Repr, DecidableEq

/-- Python str.split() semantics for len(content.split()): split on
whitespace and drop empty fragments. -/
def wordCount (s : String) : Nat :=
  ((s.split Char.isWhitespace).filter (fun w => w ≠ "")).length

/-- The event translation of the SSE stream generators
(icf_generation.py lines 147 to 196 and 279 to 328): each known service
event maps to one SSE event; unknown kinds would be skipped, which the
Option models. -/
def translateEvent : Event → Option SSE
  | Event.section_start n => some (SSE.section_start n)
  | Event.token n c a => some (SSE.token n c a)
  | Event.section_complete n c => some (SSE.section_complete n c (wordCount c))
  | Event.section_error n e => some (SSE.section_error n e)
  | Event.complete t c errs => some (SSE.complete t c errs)
  | Event.error e => some (SSE.error e)

/-- Is an SSE event a section_start? -/
def isSSEStart : SSE → Bool
  | SSE.section_start _ => true
  | _ => false

/-- Embedding of ICFGenerationService.validate_collection_exists
(icf_service.py lines 581 to 602): membership of the name in the listed
collections; any failure of the listing call is caught and reported as
non-existence. -/
def validate_collection_exists (collections : Except String (List String))
    (collection_name : String) : Bool :=
  match collections with
  | Except.error _ => false
  | Except.ok names => names.contains collection_name

/-- The not-found error message of both endpoints. -/
def notFoundMsg (collection : String) : String :=
  "Protocol collection \x27" ++ collection ++ "\x27 not found"

/-- Embedding of the generate_icf_stream endpoint body
(icf_generation.py lines 104 to 215): validates that the collection
exists; on failure it yields a single error event and returns without ever
calling the generation service (so the streamed argument, the events the
service run would produce, is not consulted); otherwise it translates the
service stream one to one. -/
def generate_icf_stream (collections : Except String (List String))
    (collection : String) (streamed : List Event) : List SSE :=
  if validate_collection_exists collections collection then
    streamed.filterMap translateEvent
  else [SSE.error (notFoundMsg collection)]

/-- The valid section names of the regeneration endpoint
(icf_generation.py lines 252 to 260), equal to the seven ICF sections. -/
def valid_sections : List String :=
  ["summary", "background", "participants", "procedures",
   "alternatives", "risks", "benefits"]

/-- The keyword parameters accepted by
ICFGenerationService.generate_icf_streaming (icf_service.py lines 86 to
90): only the collection name and the optional metadata. -/
def generate_icf_streaming_params : List String :=
  ["protocol_collection_name", "protocol_metadata"]

/-- The keyword arguments the regeneration endpoint passes to
ICFGenerationService.generate_icf_streaming (icf_generation.py lines 272
to 278), including sections_filter. -/
def regenerate_call_kwargs : List String :=
  ["protocol_collection_name", "protocol_metadata", "sections_filter"]

/-- Python call binding: a call succeeds only when every keyword argument
names an accepted parameter; otherwise the call raises TypeError. -/
def kwargsAccepted (params kwargs : List String) : Bool :=
  kwargs.all (fun k => params.contains k)

/-- The TypeError text Python raises when generate_icf_streaming is called
with the unexpected sections_filter keyword. -/
def unexpectedKwargMsg : String :=
  "ICFGenerationService.generate_icf_streaming() got an unexpected keyword argument \x27sections_filter\x27"

/-- The invalid-section error message of the regeneration endpoint. -/
def invalidSectionMsg : String :=
  "Invalid section name. Must be one of: " ++ String.intercalate ", " valid_sections

/-- Embedding of the regenerate_icf_section endpoint body
(icf_generation.py lines 218 to 347): validates the collection, then the
section name, then calls generate_icf_streaming with the sections_filter
keyword argument; since the service does not accept that parameter, the
call raises TypeError, which the surrounding handler catches and turns
into a single generic error event.  Only if the call had been accepted
would the service stream (the streamed argument) be translated. -/
def regenerate_icf_section (collections : Except String (List String))
    (collection : String) (section_name : String) (streamed : List Event) : List SSE :=
  if ¬ validate_collection_exists collections collection then
    [SSE.error (notFoundMsg collection)]
  else if ¬ valid_sections.contains section_name then
    [SSE.error invalidSectionMsg]
  else if ¬ kwargsAccepted generate_icf_streaming_params regenerate_call_kwargs then
    [SSE.error ("Generation failed: " ++ unexpectedKwargMsg)]
  else
    streamed.filterMap translateEvent

/-- The seven ICF sections iterated by WorkflowBase.invoke through
ICFWorkflow.sections (document_generator.py lines 241 to 244). -/
def icf_sections : List String :=
  ["summary", "background", "participants", "procedures",
   "alternatives", "risks", "benefits"]

/-- The sections map assembled by WorkflowBase.invoke
(document_generator.py lines 188 to 201) from the per-section revision
lists of the workflow result: each non-empty list contributes its latest
entry. -/
def collectSections (res : String → List String) : List (String × String) :=
  icf_sections.filterMap (fun n => (res n).getLast?.map (fun c => (n, c)))

/-- The errors list assembled by WorkflowBase.invoke: one message per
section whose revision list is empty. -/
def collectErrors (res : String → List String) : List String :=
  (icf_sections.filter (fun n => (res n).isEmpty)).map
    (fun n => "Missing section: " ++ n)

/-- The non-streaming generation outcome of _generate_icf_sync. -/
structure SyncOutcome where
  collection_name : String
  sections : List (String × String)
  errors : List String
  status : String
deriving Repr, DecidableEq

/-- The required sections _generate_icf_sync checks for
(icf_service.py lines 397 to 405). -/
def required_sections : List String := icf_sections

/-- The sections of the list absent from the assembled sections map
(icf_service.py line 407). -/
def missingSections (sections : List (String × String)) : List String :=
  required_sections.filter (fun s => ¬ (sections.map Prod.fst).contains s)

/-- Embedding of ICFGenerationService._generate_icf_sync
(icf_service.py lines 331 to 439) composed with WorkflowBase.invoke
(document_generator.py lines 158 to 216): a failure of the initial broad
retrieval propagates as a wrapped error; otherwise the workflow result
(res, the per-section revision lists) is folded into sections and errors;
if any required section is missing the call raises (the raise at line 413,
re-wrapped by the outer handler at line 439); otherwise it returns the
outcome with status completed when errors is empty and
completed_with_warnings otherwise. -/
def generate_icf_sync (collection : String)
    (initialRetrieval : Except String (List ContextItem))
    (res : String → List String) : Except String SyncOutcome :=
  match initialRetrieval with
  | Except.error e => Except.error ("Failed to generate ICF: " ++ e)
  | Except.ok _ =>
      let sections := collectSections res
      let errors := collectErrors res
      let missing := missingSections sections
      if missing.isEmpty then
        Except.ok
          { collection_name := collection
            sections := sections
            errors := errors
            status := if errors.isEmpty then "completed" else "completed_with_warnings" }
      else
        Except.error
          ("Failed to generate ICF: Missing required ICF sections: " ++
            String.intercalate ", " missing)

/-- Boolean success test of an Except value. -/
def isOkE (x : Except String SyncOutcome) : Bool :=
  match x with
  | Except.ok _ => true
  | Except.error _ => false

/-- Embedding of ICFWorkflow._format_context (document_generator.py lines
335 to 346): the non-empty placeholder for an empty context, or the top
five items rendered with their relevance scores; the score formatting
(Python percent-style 2-decimal rendering) is an oracle. -/
def icf_format_context (fmt : Rat → String) (context : List ContextItem) : String :=
  if context.isEmpty then "No specific protocol context available."
  else String.intercalate "\n\n"
    ((context.take 5).map (fun i => "[Relevance: " ++ fmt i.score ++ "] " ++ i.text))

/-! Concrete fixtures used by counterexamples and witnesses. -/

/-- A search oracle whose index exists but holds no passages. -/
def searchEmpty : SearchFn := fun _ _ _ => Except.ok []

/-- Queue arrival list of the spec's scenario C: six sections complete and
the benefits section reports a section_error. -/
def scenarioC : List Event :=
  [Event.section_complete "summary" "s1",
   Event.section_complete "background" "s2",
   Event.section_complete "participants" "s3",
   Event.section_complete "procedures" "s4",
   Event.section_complete "alternatives" "s5",
   Event.section_error "benefits" "Failed to generate benefits: model call failed",
   Event.section_complete "risks" "s6"]

/-- Section inputs whose retrieval is empty, whose stream yields two deltas
and then fails, and whose fallback succeeds. -/
def inpFallback : SectionInputs :=
  { retrieval := Except.ok []
    llmStream := fun _ _ => { chunks := ["par", "tial"], fails := true }
    llmInvoke := fun _ _ => Except.ok "fallback text" }

/-- Section inputs whose retrieval is empty and whose stream succeeds with
two deltas; the fallback would fail but is never needed. -/
def inpStreamOk : SectionInputs :=
  { retrieval := Except.ok []
    llmStream := fun _ _ => { chunks := ["Hello ", "world"], fails := false }
    llmInvoke := fun _ _ => Except.error "unused" }

/-- A workflow result with content for six sections and nothing for
benefits. -/
def resSixOfSeven : String → List String :=
  fun n => if n = "benefits" then [] else ["generated " ++ n]

/-- A workflow result with content for every section. -/
def resAllSeven : String → List String := fun n => ["generated " ++ n]

/-- A search oracle with one well-scoring hit and one below-threshold hit,
in index order. -/
def searchTwoHits : SearchFn := fun _ _ _ =>
  Except.ok [{ text := "risk passage", score := mkRat 9 10, chunk_index := 0 },
             { text := "weak passage", score := mkRat 1 10, chunk_index := 1 }]

/-- The outcome of the synchronous fold when every section succeeded. -/
def outAll : SyncOutcome :=
  { collection_name := "PROTO-1"
    sections :=
      [("summary", "generated summary"), ("background", "generated background"),
       ("participants", "generated participants"), ("procedures", "generated procedures"),
       ("alternatives", "generated alternatives"), ("risks", "generated risks"),
       ("benefits", "generated benefits")]
    errors := []
    status := "completed" }

/-- The number of section_complete events in a trace. -/
def countSC (l : List Event) : Nat := (l.filter isSC).length

/-- The number of section_error events in a trace. -/
def countSE (l : List Event) : Nat := (l.filter isSE).length

lemma str_empty_append (s : String) : "" ++ s = s := by
  cases s
  rfl

lemma str_append_empty (s : String) : s ++ "" = s := by
  cases s with
  | mk data => exact congrArg String.mk (List.append_nil data)

lemma str_append_assoc (a b c : String) : a ++ b ++ c = a ++ (b ++ c) := by
  cases a with
  | mk da =>
    cases b with
    | mk db =>
      cases c with
      | mk dc => exact congrArg String.mk (List.append_assoc da db dc)

lemma mem_tokenEvents_isToken {n : String} :
    ∀ (acc : String) (chunks : List String) (e : Event),
      e ∈ tokenEvents n acc chunks → isToken e = true := by
  intro acc chunks
  induction chunks generalizing acc with
  | nil => intro e he; simp [tokenEvents] at he
  | cons c rest ih =>
    intro e he
    by_cases hc : c = ""
    · rw [tokenEvents, if_pos hc] at he
      exact ih acc e he
    · rw [tokenEvents, if_neg hc] at he
      rcases List.mem_cons.mp he with h | h
      · subst h; rfl
      · exact ih (acc ++ c) e h

lemma mem_tokenEvents_section {n : String} :
    ∀ (acc : String) (chunks : List String) (e : Event),
      e ∈ tokenEvents n acc chunks → eventSection e = some n := by
  intro acc chunks
  induction chunks generalizing acc with
  | nil => intro e he; simp [tokenEvents] at he
  | cons c rest ih =>
    intro e he
    by_cases hc : c = ""
    · rw [tokenEvents, if_pos hc] at he
      exact ih acc e he
    · rw [tokenEvents, if_neg hc] at he
      rcases List.mem_cons.mp he with h | h
      · subst h; rfl
      · exact ih (acc ++ c) e h

lemma isTerminal_of_isToken {e : Event} (h : isToken e = true) : isTerminal e = false := by
  cases e <;> simp_all [isToken, isTerminal, isSC, isSE]

lemma isSE_of_isToken {e : Event} (h : isToken e = true) : isSE e = false := by
  cases e <;> simp_all [isToken, isSE]

lemma tokenEvents_get_general {n : String} :
    ∀ (chunks : List String) (acc : String) (i : Nat) (e : Event),
      (tokenEvents n acc chunks).get? i = some e →
      ∃ c a, e = Event.token n c a ∧
        a = acc ++ concatAll (tokenContents ((tokenEvents n acc chunks).take (i + 1))) := by
  intro chunks
  induction chunks with
  | nil =>
    intro acc i e he
    simp [tokenEvents] at he
  | cons c rest ih =>
    intro acc i e he
    by_cases hc : c = ""
    · rw [tokenEvents, if_pos hc] at he ⊢
      exact ih acc i e he
    · rw [tokenEvents, if_neg hc] at he ⊢
      cases i with
      | zero =>
        simp only [List.get?] at he
        refine ⟨c, acc ++ c, by exact (Option.some.injEq _ _).mp he ▸ rfl, ?_⟩
        simp [tokenContents, concatAll, str_append_empty]
      | succ j =>
        have he2 : (tokenEvents n (acc ++ c) rest).get? j = some e := he
        obtain ⟨c2, a2, hEq, ha⟩ := ih (acc ++ c) j e he2
        refine ⟨c2, a2, hEq, ?_⟩
        rw [ha]
        have htake : (Event.token n c (acc ++ c) :: tokenEvents n (acc ++ c) rest).take (j + 1 + 1) =
            Event.token n c (acc ++ c) :: (tokenEvents n (acc ++ c) rest).take (j + 1) := rfl
        rw [htake]
        have hcontents : tokenContents (Event.token n c (acc ++ c) ::
            (tokenEvents n (acc ++ c) rest).take (j + 1)) =
            c :: tokenContents ((tokenEvents n (acc ++ c) rest).take (j + 1)) := rfl
        rw [hcontents]
        have hcat : concatAll (c :: tokenContents ((tokenEvents n (acc ++ c) rest).take (j + 1))) =
            c ++ concatAll (tokenContents ((tokenEvents n (acc ++ c) rest).take (j + 1))) := rfl
        rw [hcat, str_append_assoc]

lemma accumulate_general {n : String} :
    ∀ (chunks : List String) (acc : String),
      accumulate acc chunks = acc ++ concatAll (tokenContents (tokenEvents n acc chunks)) := by
  intro chunks
  induction chunks with
  | nil =>
    intro acc
    simp [accumulate, tokenEvents, tokenContents, concatAll, str_append_empty]
  | cons c rest ih =>
    intro acc
    by_cases hc : c = ""
    · rw [accumulate, if_pos hc, tokenEvents, if_pos hc]
      exact ih acc
    · rw [accumulate, if_neg hc, tokenEvents, if_neg hc]
      rw [ih (acc ++ c)]
      have : tokenContents (Event.token n c (acc ++ c) :: tokenEvents n (acc ++ c) rest) =
          c :: tokenContents (tokenEvents n (acc ++ c) rest) := rfl
      rw [this]
      have : concatAll (c :: tokenContents (tokenEvents n (acc ++ c) rest)) =
          c ++ concatAll (tokenContents (tokenEvents n (acc ++ c) rest)) := rfl
      rw [this, str_append_assoc]

lemma generateSection_shape (n p : String) (inp : SectionInputs) :
    ∃ pre term, (generateSection n p inp).1 = pre ++ [term] ∧
      isTerminal term = true ∧
      (∀ e ∈ pre, isTerminal e = false) ∧
      (pre = [] ∨ ∃ toks, pre = Event.section_start n :: toks ∧
        ∀ e ∈ toks, isToken e = true) := by
  unfold generateSection
  cases hr : inp.retrieval with
  | error e =>
    refine ⟨[], Event.section_error n e, rfl, rfl, by simp, Or.inl rfl⟩
  | ok items =>
    simp only
    set user := mkUserMessage (contextTextOf n items) n with huser
    set so := inp.llmStream p user with hso
    by_cases hf : so.fails
    · rw [if_pos hf]
      cases hinv : inp.llmInvoke p user with
      | ok content =>
        refine ⟨Event.section_start n :: tokenEvents n "" so.chunks,
          Event.section_complete n content, by simp, rfl, ?_, ?_⟩
        · intro e he
          rcases List.mem_cons.mp he with h | h
          · subst h; rfl
          · exact isTerminal_of_isToken (mem_tokenEvents_isToken _ _ _ h)
        · exact Or.inr ⟨tokenEvents n "" so.chunks, rfl,
            fun e he => mem_tokenEvents_isToken _ _ _ he⟩
      | error e =>
        refine ⟨Event.section_start n :: tokenEvents n "" so.chunks,
          Event.section_error n ("Failed to generate " ++ n ++ ": " ++ e),
          by simp, rfl, ?_, ?_⟩
        · intro e2 he
          rcases List.mem_cons.mp he with h | h
          · subst h; rfl
          · exact isTerminal_of_isToken (mem_tokenEvents_isToken _ _ _ h)
        · exact Or.inr ⟨tokenEvents n "" so.chunks, rfl,
            fun e2 he => mem_tokenEvents_isToken _ _ _ he⟩
    · rw [if_neg hf]
      refine ⟨Event.section_start n :: tokenEvents n "" so.chunks,
        Event.section_complete n (accumulate "" so.chunks), by simp, rfl, ?_, ?_⟩
      · intro e he
        rcases List.mem_cons.mp he with h | h
        · subst h; rfl
        · exact isTerminal_of_isToken (mem_tokenEvents_isToken _ _ _ h)
      · exact Or.inr ⟨tokenEvents n "" so.chunks, rfl,
          fun e he => mem_tokenEvents_isToken _ _ _ he⟩

lemma drainEvents_stop {t c : Nat} (incoming : List Event) (h : t ≤ c) :
    drainEvents t c incoming = ([], c) := by
  rw [drainEvents.eq_def, if_pos h]

lemma drainEvents_nil {t c : Nat} (h : ¬ t ≤ c) :
    drainEvents t c [] = ([Event.error timeoutMessage], c) := by
  rw [drainEvents.eq_def, if_neg h]

lemma drainEvents_cons_sc {t c : Nat} (n s : String) (rest : List Event) (h : ¬ t ≤ c) :
    drainEvents t c (Event.section_complete n s :: rest) =
      (Event.section_complete n s :: (drainEvents t (c + 1) rest).1,
       (drainEvents t (c + 1) rest).2) := by
  rw [drainEvents.eq_def, if_neg h]

lemma drainEvents_cons_fatal {t c : Nat} (m : String) (rest : List Event) (h : ¬ t ≤ c) :
    drainEvents t c (Event.error m :: rest) =
      (Event.error m :: (drainEvents t t rest).1, (drainEvents t t rest).2) := by
  rw [drainEvents.eq_def, if_neg h]

lemma drainEvents_cons_other {t c : Nat} (e : Event) (rest : List Event) (h : ¬ t ≤ c)
    (hsc : isSC e = false) (hf : isFatal e = false) :
    drainEvents t c (e :: rest) =
      (e :: (drainEvents t c rest).1, (drainEvents t c rest).2) := by
  cases e with
  | section_complete n s => simp [isSC] at hsc
  | error m => simp [isFatal] at hf
  | section_start n => rw [drainEvents.eq_def, if_neg h]
  | token n c2 a => rw [drainEvents.eq_def, if_neg h]
  | section_error n e2 => rw [drainEvents.eq_def, if_neg h]
  | complete t2 c2 errs => rw [drainEvents.eq_def, if_neg h]

lemma countSC_cons_sc (n s : String) (l : List Event) :
    countSC (Event.section_complete n s :: l) = countSC l + 1 := by
  simp [countSC, List.filter_cons, isSC]

lemma countSC_cons_nonsc (e : Event) (l : List Event) (h : isSC e = false) :
    countSC (e :: l) = countSC l := by
  simp [countSC, List.filter_cons, h]

lemma drain_no_complete (t : Nat) :
    ∀ (incoming : List Event) (c : Nat),
      (∀ e ∈ incoming, isCompleteEv e = false) →
      ((drainEvents t c incoming).1.filter isCompleteEv) = [] := by
  intro incoming
  induction incoming with
  | nil =>
    intro c _
    by_cases h : t ≤ c
    · rw [drainEvents_stop _ h]
      rfl
    · rw [drainEvents_nil h]
      simp [isCompleteEv]
  | cons e rest ih =>
    intro c hnc
    by_cases h : t ≤ c
    · rw [drainEvents_stop _ h]
      rfl
    · have hrest : ∀ e2 ∈ rest, isCompleteEv e2 = false :=
        fun e2 he2 => hnc e2 (List.mem_cons_of_mem _ he2)
      have he : isCompleteEv e = false := hnc e (List.mem_cons_self _ _)
      by_cases hsc : isSC e = true
      · cases e with
        | section_complete n s =>
          rw [drainEvents_cons_sc n s rest h]
          simp only [List.filter_cons, he]
          simpa using ih (c + 1) hrest
        | section_start n => simp [isSC] at hsc
        | token n c2 a => simp [isSC] at hsc
        | section_error n e2 => simp [isSC] at hsc
        | complete a b c2 => simp [isSC] at hsc
        | error m => simp [isSC] at hsc
      · by_cases hf : isFatal e = true
        · cases e with
          | error m =>
            rw [drainEvents_cons_fatal m rest h]
            simp only [List.filter_cons, he]
            simpa using ih t hrest
          | section_start n => simp [isFatal] at hf
          | token n c2 a => simp [isFatal] at hf
          | section_error n e2 => simp [isFatal] at hf
          | complete a b c2 => simp [isFatal] at hf
          | section_complete n s => simp [isFatal] at hf
        · rw [drainEvents_cons_other e rest h (by simpa using hsc) (by simpa using hf)]
          simp only [List.filter_cons, he]
          simpa using ih c hrest

lemma drain_enough (t : Nat) :
    ∀ (incoming : List Event) (c : Nat),
      (∀ e ∈ incoming, isFatal e = false) →
      c ≤ t → t ≤ c + countSC incoming →
      ((drainEvents t c incoming).1.filter isFatal) = [] ∧
      countSC (drainEvents t c incoming).1 = t - c ∧
      (drainEvents t c incoming).2 = t := by
  intro incoming
  induction incoming with
  | nil =>
    intro c _ hct hle
    have hc : c = t := by simp [countSC] at hle; omega
    subst hc
    rw [drainEvents_stop _ (le_refl c)]
    simp [countSC]
  | cons e rest ih =>
    intro c hnf hct hle
    by_cases h : t ≤ c
    · have hc : c = t := le_antisymm hct h
      subst hc
      rw [drainEvents_stop _ (le_refl c)]
      simp [countSC]
    · have hrest : ∀ e2 ∈ rest, isFatal e2 = false :=
        fun e2 he2 => hnf e2 (List.mem_cons_of_mem _ he2)
      have hef : isFatal e = false := hnf e (List.mem_cons_self _ _)
      by_cases hsc : isSC e = true
      · cases e with
        | section_complete n s =>
          rw [drainEvents_cons_sc n s rest h]
          rw [countSC_cons_sc] at hle
          obtain ⟨f1, f2, f3⟩ := ih (c + 1) hrest (by omega) (by omega)
          refine ⟨?_, ?_, f3⟩
          · simp only [List.filter_cons, isFatal]
            exact f1
          · rw [countSC_cons_sc]
            omega
        | section_start n => simp [isSC] at hsc
        | token n c2 a => simp [isSC] at hsc
        | section_error n e2 => simp [isSC] at hsc
        | complete a b c2 => simp [isSC] at hsc
        | error m => simp [isSC] at hsc
      · have hsc2 : isSC e = false := by simpa using hsc
        rw [drainEvents_cons_other e rest h hsc2 hef]
        rw [countSC_cons_nonsc e rest hsc2] at hle
        obtain ⟨f1, f2, f3⟩ := ih c hrest hct hle
        refine ⟨?_, ?_, f3⟩
        · simp only [List.filter_cons, hef]
          exact f1
        · rw [countSC_cons_nonsc e _ hsc2]
          exact f2

lemma drain_timeout (t : Nat) :
    ∀ (incoming : List Event) (c : Nat),
      (∀ e ∈ incoming, isFatal e = false) →
      c + countSC incoming < t →
      ((drainEvents t c incoming).1.filter isFatal) = [Event.error timeoutMessage] ∧
      countSC (drainEvents t c incoming).1 = countSC incoming ∧
      (drainEvents t c incoming).2 = c + countSC incoming := by
  intro incoming
  induction incoming with
  | nil =>
    intro c _ hlt
    have h : ¬ t ≤ c := by simp [countSC] at hlt; omega
    rw [drainEvents_nil h]
    simp [countSC, isFatal, isSC]
  | cons e rest ih =>
    intro c hnf hlt
    have h : ¬ t ≤ c := by omega
    have hrest : ∀ e2 ∈ rest, isFatal e2 = false :=
      fun e2 he2 => hnf e2 (List.mem_cons_of_mem _ he2)
    have hef : isFatal e = false := hnf e (List.mem_cons_self _ _)
    by_cases hsc : isSC e = true
    · cases e with
      | section_complete n s =>
        rw [drainEvents_cons_sc n s rest h]
        rw [countSC_cons_sc] at hlt
        obtain ⟨f1, f2, f3⟩ := ih (c + 1) hrest (by omega)
        refine ⟨?_, ?_, ?_⟩
        · simp only [List.filter_cons, isFatal]
          exact f1
        · rw [countSC_cons_sc, countSC_cons_sc]
          omega
        · rw [countSC_cons_sc]
          omega
      | section_start n => simp [isSC] at hsc
      | token n c2 a => simp [isSC] at hsc
      | section_error n e2 => simp [isSC] at hsc
      | complete a b c2 => simp [isSC] at hsc
      | error m => simp [isSC] at hsc
    · have hsc2 : isSC e = false := by simpa using hsc
      rw [drainEvents_cons_other e rest h hsc2 hef]
      rw [countSC_cons_nonsc e rest hsc2] at hlt
      obtain ⟨f1, f2, f3⟩ := ih c hrest hlt
      refine ⟨?_, ?_, ?_⟩
      · simp only [List.filter_cons, hef]
        exact f1
      · rw [countSC_cons_nonsc e _ hsc2, countSC_cons_nonsc e rest hsc2]
        exact f2
      · rw [countSC_cons_nonsc e rest hsc2]
        exact f3

lemma generateSection_retrieval_error (n p : String) (inp : SectionInputs)
    (e : String) (h : inp.retrieval = Except.error e) :
    generateSection n p inp = ([Event.section_error n e], []) := by
  unfold generateSection
  rw [h]

lemma generateSection_ok_cases (n p : String) (inp : SectionInputs)
    (items : List ContextItem) (h : inp.retrieval = Except.ok items) :
    ((inp.llmStream p (mkUserMessage (contextTextOf n items) n)).fails = true →
      (∀ content,
        inp.llmInvoke p (mkUserMessage (contextTextOf n items) n) = Except.ok content →
        generateSection n p inp =
          (Event.section_start n ::
            tokenEvents n "" (inp.llmStream p (mkUserMessage (contextTextOf n items) n)).chunks ++
            [Event.section_complete n content],
           [(p, mkUserMessage (contextTextOf n items) n)])) ∧
      (∀ e,
        inp.llmInvoke p (mkUserMessage (contextTextOf n items) n) = Except.error e →
        generateSection n p inp =
          (Event.section_start n ::
            tokenEvents n "" (inp.llmStream p (mkUserMessage (contextTextOf n items) n)).chunks ++
            [Event.section_error n ("Failed to generate " ++ n ++ ": " ++ e)],
           [(p, mkUserMessage (contextTextOf n items) n)]))) ∧
    ((inp.llmStream p (mkUserMessage (contextTextOf n items) n)).fails = false →
      generateSection n p inp =
        (Event.section_start n ::
          tokenEvents n "" (inp.llmStream p (mkUserMessage (contextTextOf n items) n)).chunks ++
          [Event.section_complete n
            (accumulate "" (inp.llmStream p (mkUserMessage (contextTextOf n items) n)).chunks)],
         [])) := by
  constructor
  · intro hf
    constructor
    · intro content hinv
      unfold generateSection
      rw [h]
      simp only [hf, if_true, hinv]
    · intro e hinv
      unfold generateSection
      rw [h]
      simp only [hf, if_true, hinv]
  · intro hf
    unfold generateSection
    rw [h]
    simp only [hf, Bool.false_eq_true, if_false]

lemma generateSection_events_section (n p : String) (inp : SectionInputs) :
    ∀ e ∈ (generateSection n p inp).1, eventSection e = some n := by
  intro e he
  cases hr : inp.retrieval with
  | error msg =>
    rw [generateSection_retrieval_error n p inp msg hr] at he
    simp only [List.mem_singleton] at he
    subst he
    rfl
  | ok items =>
    by_cases hf : (inp.llmStream p (mkUserMessage (contextTextOf n items) n)).fails = true
    · cases hinv : inp.llmInvoke p (mkUserMessage (contextTextOf n items) n) with
      | ok content =>
        rw [((generateSection_ok_cases n p inp items hr).1 hf).1 content hinv] at he
        simp only [List.mem_cons, List.mem_append, List.mem_singleton] at he
        rcases he with (h1 | h2) | h3 | h4
        · subst h1; rfl
        · exact mem_tokenEvents_section _ _ _ h2
        · subst h3; rfl
        · cases h4
      | error msg =>
        rw [((generateSection_ok_cases n p inp items hr).1 hf).2 msg hinv] at he
        simp only [List.mem_cons, List.mem_append, List.mem_singleton] at he
        rcases he with (h1 | h2) | h3 | h4
        · subst h1; rfl
        · exact mem_tokenEvents_section _ _ _ h2
        · subst h3; rfl
        · cases h4
    · have hf2 : (inp.llmStream p (mkUserMessage (contextTextOf n items) n)).fails = false := by
        simpa using hf
      rw [(generateSection_ok_cases n p inp items hr).2 hf2] at he
      simp only [List.mem_cons, List.mem_append, List.mem_singleton] at he
      rcases he with (h1 | h2) | h3 | h4
      · subst h1; rfl
      · exact mem_tokenEvents_section _ _ _ h2
      · subst h3; rfl
      · cases h4

lemma filter_isSE_tokenEvents (n : String) (acc : String) (chunks : List String) :
    (tokenEvents n acc chunks).filter isSE = [] := by
  rw [List.filter_eq_nil_iff]
  intro e he
  simp [isSE_of_isToken (mem_tokenEvents_isToken _ _ _ he)]

lemma collect_fst_general (res : String → List String) :
    ∀ l : List String,
      (l.filterMap (fun n => (res n).getLast?.map (fun c => (n, c)))).map Prod.fst =
        l.filter (fun n => !(res n).isEmpty) := by
  intro l
  induction l with
  | nil => rfl
  | cons a t ih =>
    rw [List.filter_cons]
    cases hl : (res a).getLast? with
    | none =>
      have hempty : (res a).isEmpty = true := by
        rw [List.getLast?_eq_none_iff.mp hl]
        rfl
      rw [List.filterMap_cons_none (by rw [hl]; rfl)]
      rw [hempty]
      simpa using ih
    | some c =>
      have hne : (res a).isEmpty = false := by
        cases hres : res a with
        | nil => rw [hres] at hl; simp at hl
        | cons x xs => rfl
      rw [List.filterMap_cons_some (by rw [hl]; rfl)]
      rw [hne]
      simpa using ih

lemma contains_fst_iff (res : String → List String) (s : String) (hs : s ∈ icf_sections) :
    ((collectSections res).map Prod.fst).contains s = true ↔ res s ≠ [] := by
  have hrw : (collectSections res).map Prod.fst =
      icf_sections.filter (fun n => !(res n).isEmpty) := collect_fst_general res icf_sections
  rw [hrw, List.elem_iff]
  constructor
  · intro hmem hnil
    obtain ⟨-, hp⟩ := List.mem_filter.mp hmem
    rw [hnil] at hp
    simp at hp
  · intro hne
    refine List.mem_filter.mpr ⟨hs, ?_⟩
    cases hres : res s with
    | nil => exact absurd hres hne
    | cons x xs => rfl

lemma missing_isEmpty_iff (res : String → List String) :
    (missingSections (collectSections res)).isEmpty = true ↔
      ∀ s ∈ icf_sections, res s ≠ [] := by
  rw [List.isEmpty_iff]
  unfold missingSections required_sections
  rw [List.filter_eq_nil_iff]
  constructor
  · intro h s hs hnil
    have hc := h s hs
    apply hc
    have hfalse : ((collectSections res).map Prod.fst).contains s = false := by
      cases hb : ((collectSections res).map Prod.fst).contains s with
      | false => rfl
      | true => exact absurd ((contains_fst_iff res s hs).mp hb) (by simp [hnil])
    rw [hfalse]
    rfl
  · intro h s hs
    have htrue := (contains_fst_iff res s hs).mpr (h s hs)
    rw [htrue]
    simp

lemma collectErrors_nil (res : String → List String)
    (h : ∀ s ∈ icf_sections, res s ≠ []) : collectErrors res = [] := by
  unfold collectErrors
  have hfilter : icf_sections.filter (fun n => (res n).isEmpty) = [] := by
    rw [List.filter_eq_nil_iff]
    intro a ha
    cases hres : res a with
    | nil => exact absurd hres (h a ha)
    | cons x xs => simp [hres]
  rw [hfilter]
  rfl

lemma getLast?_cons_concat : ∀ (a : Event) (l : List Event) (b : Event),
    (a :: l ++ [b]).getLast? = some b := by
  intro a l
  induction l generalizing a with
  | nil => intro b; rfl
  | cons x xs ih =>
    intro b
    show (a :: x :: (xs ++ [b])).getLast? = some b
    rw [List.getLast?_cons_cons]
    exact ih x b

/-- Claim C7: every retrieval call requests a candidate count of 10 (the
result depends only on the limit-10 search), returns exactly the candidates
whose score is at least min_score in the order the index returned them (a
sublist of the mapped hits, each above threshold), and when zero candidates
satisfy the threshold it returns an empty list rather than an error. -/
theorem retrieve_filters_in_index_order (search : SearchFn) (collection query : String)
    (m : Rat) :
    (∀ search2 : SearchFn, search2 collection query 10 = search collection query 10 →
      get_protocol_context search2 collection query m =
        get_protocol_context search collection query m) ∧
    (∀ hits : List Hit, search collection query 10 = Except.ok hits →
      (get_protocol_context search collection query m =
        Except.ok ((hits.filter (fun h => m ≤ h.score)).map
          (fun h => { text := h.text, score := h.score, chunk_index := h.chunk_index })) ∧
      List.Sublist
        ((hits.filter (fun h => m ≤ h.score)).map
          (fun h => ({ text := h.text, score := h.score, chunk_index := h.chunk_index } :
            ContextItem)))
        (hits.map
          (fun h => ({ text := h.text, score := h.score, chunk_index := h.chunk_index } :
            ContextItem))) ∧
      (∀ it ∈ (hits.filter (fun h => m ≤ h.score)).map
          (fun h => ({ text := h.text, score := h.score, chunk_index := h.chunk_index } :
            ContextItem)),
        m ≤ it.score) ∧
      ((∀ h ∈ hits, ¬ (m ≤ h.score)) →
        get_protocol_context search collection query m = Except.ok []))) := by
  constructor
  · intro search2 hs
    unfold get_protocol_context
    rw [hs]
  · intro hits hok
    refine ⟨?_, ?_, ?_, ?_⟩
    · unfold get_protocol_context
      rw [hok]
    · exact List.Sublist.map _ (List.filter_sublist _)
    · intro it hit
      obtain ⟨h, hmem, hEq⟩ := List.mem_map.mp hit
      obtain ⟨-, hp⟩ := List.mem_filter.mp hmem
      rw [← hEq]
      exact of_decide_eq_true hp
    · intro hall
      unfold get_protocol_context
      rw [hok]
      have hnil : hits.filter (fun h => m ≤ h.score) = [] := by
        rw [List.filter_eq_nil_iff]
        intro a ha
        simpa using hall a ha
      simp only [hnil, List.map_nil]

/-- Witness for claim C7 at a concrete index: one hit at score 9/10 and one
at 1/10, threshold 3/10, keeps exactly the first hit. -/
theorem retrieve_filters_in_index_order_witness :
    searchTwoHits "PROTO-1" "q" 10 =
      Except.ok [{ text := "risk passage", score := mkRat 9 10, chunk_index := 0 },
                 { text := "weak passage", score := mkRat 1 10, chunk_index := 1 }] ∧
    get_protocol_context searchTwoHits "PROTO-1" "q" (mkRat 3 10) =
      Except.ok [{ text := "risk passage", score := mkRat 9 10, chunk_index := 0 }] :=
  ⟨rfl,
    ((retrieve_filters_in_index_order searchTwoHits "PROTO-1" "q" (mkRat 3 10)).2
      [{ text := "risk passage", score := mkRat 9 10, chunk_index := 0 },
       { text := "weak passage", score := mkRat 1 10, chunk_index := 1 }] rfl).1⟩

/-- Claim C9: the trace a section generator pushes to the shared queue is a
prefix followed by one terminal (section_complete or section_error) event;
nothing for the section follows its terminal event, the prefix holds no
terminal event, and when the prefix is non-empty it is the section_start
followed only by token events (so section_start precedes every token, and
every token precedes the terminal event). -/
theorem per_section_event_ordering (section_name system_prompt : String)
    (inp : SectionInputs) :
    ∃ pre term, (generateSection section_name system_prompt inp).1 = pre ++ [term] ∧
      isTerminal term = true ∧
      (∀ e ∈ pre, isTerminal e = false) ∧
      (pre = [] ∨ ∃ toks, pre = Event.section_start section_name :: toks ∧
        ∀ e ∈ toks, isToken e = true) :=
  generateSection_shape section_name system_prompt inp

/-- Witness for claim C9 at a concrete run (a stream that yields two deltas
and then falls back): the trace decomposes as the ordering law requires. -/
theorem per_section_event_ordering_witness :
    ∃ pre term, (generateSection "risks" "p" inpFallback).1 = pre ++ [term] ∧
      isTerminal term = true ∧
      (∀ e ∈ pre, isTerminal e = false) ∧
      (pre = [] ∨ ∃ toks, pre = Event.section_start "risks" :: toks ∧
        ∀ e ∈ toks, isToken e = true) :=
  per_section_event_ordering "risks" "p" inpFallback

/-- Claim C8: when context retrieval returns zero passages, the context
block placed into the prompt is the non-empty per-section placeholder (and
the non-streaming formatter likewise yields its non-empty placeholder), and
the section generator still runs to completion, its trace opening with
section_start and ending with a terminal event. -/
theorem empty_retrieval_placeholder_and_completion (section_name system_prompt : String)
    (inp : SectionInputs) (h : inp.retrieval = Except.ok []) :
    contextTextOf section_name [] = "No specific context for " ++ section_name ∧
    contextTextOf section_name [] ≠ "" ∧
    (∃ toks term, (generateSection section_name system_prompt inp).1 =
        Event.section_start section_name :: toks ++ [term] ∧ isTerminal term = true) ∧
    (∀ fmt : Rat → String,
      icf_format_context fmt [] = "No specific protocol context available.") := by
  refine ⟨rfl, ?_, ?_, fun fmt => rfl⟩
  · intro heq
    have heq2 : "No specific context for " ++ section_name = "" := heq
    have hlen := congrArg String.length heq2
    rw [String.length_append] at hlen
    have h24 : ("No specific context for ").length = 24 := rfl
    have h0 : ("" : String).length = 0 := rfl
    rw [h24, h0] at hlen
    omega
  · by_cases hf :
      (inp.llmStream system_prompt
        (mkUserMessage (contextTextOf section_name []) section_name)).fails = true
    · cases hinv : inp.llmInvoke system_prompt
        (mkUserMessage (contextTextOf section_name []) section_name) with
      | ok content =>
        refine ⟨tokenEvents section_name ""
          (inp.llmStream system_prompt
            (mkUserMessage (contextTextOf section_name []) section_name)).chunks,
          Event.section_complete section_name content, ?_, rfl⟩
        exact congrArg Prod.fst
          (((generateSection_ok_cases section_name system_prompt inp [] h).1 hf).1
            content hinv)
      | error msg =>
        refine ⟨tokenEvents section_name ""
          (inp.llmStream system_prompt
            (mkUserMessage (contextTextOf section_name []) section_name)).chunks,
          Event.section_error section_name
            ("Failed to generate " ++ section_name ++ ": " ++ msg), ?_, rfl⟩
        exact congrArg Prod.fst
          (((generateSection_ok_cases section_name system_prompt inp [] h).1 hf).2
            msg hinv)
    · have hf2 : (inp.llmStream system_prompt
          (mkUserMessage (contextTextOf section_name []) section_name)).fails = false := by
        simpa using hf
      refine ⟨tokenEvents section_name ""
        (inp.llmStream system_prompt
          (mkUserMessage (contextTextOf section_name []) section_name)).chunks,
        Event.section_complete section_name
          (accumulate ""
            (inp.llmStream system_prompt
              (mkUserMessage (contextTextOf section_name []) section_name)).chunks),
        ?_, rfl⟩
      exact congrArg Prod.fst
        ((generateSection_ok_cases section_name system_prompt inp [] h).2 hf2)

/-- Witness for claim C8 at concrete inputs: empty retrieval, a succeeding
stream; the trace ends with a terminal event and the placeholder holds. -/
theorem empty_retrieval_placeholder_and_completion_witness :
    inpStreamOk.retrieval = Except.ok [] ∧
    (∃ toks term, (generateSection "risks" "p" inpStreamOk).1 =
        Event.section_start "risks" :: toks ++ [term] ∧ isTerminal term = true) :=
  ⟨rfl, (empty_retrieval_placeholder_and_completion "risks" "p" inpStreamOk rfl).2.2.1⟩

/-- Claim C6: a streaming model-call failure triggers exactly one fallback
call to the non-streaming client with the same system prompt and user
message (and no fallback call happens when the stream succeeds); a
section_error is emitted only when the fallback also fails or when context
retrieval failed, in which case the trace stops at that event; every event
of the trace belongs to this section, so sibling sections are unaffected. -/
theorem stream_failure_single_fallback (section_name system_prompt : String)
    (inp : SectionInputs) :
    (∀ e, inp.retrieval = Except.error e →
      generateSection section_name system_prompt inp =
        ([Event.section_error section_name e], [])) ∧
    (∀ items, inp.retrieval = Except.ok items →
      ((generateSection section_name system_prompt inp).2 =
        (if (inp.llmStream system_prompt
              (mkUserMessage (contextTextOf section_name items) section_name)).fails
         then [(system_prompt, mkUserMessage (contextTextOf section_name items) section_name)]
         else [])) ∧
      (∀ content,
        (inp.llmStream system_prompt
          (mkUserMessage (contextTextOf section_name items) section_name)).fails = true →
        inp.llmInvoke system_prompt
          (mkUserMessage (contextTextOf section_name items) section_name) =
            Except.ok content →
        ((generateSection section_name system_prompt inp).1.getLast? =
            some (Event.section_complete section_name content) ∧
          (generateSection section_name system_prompt inp).1.filter isSE = [])) ∧
      (∀ e,
        (inp.llmStream system_prompt
          (mkUserMessage (contextTextOf section_name items) section_name)).fails = true →
        inp.llmInvoke system_prompt
          (mkUserMessage (contextTextOf section_name items) section_name) =
            Except.error e →
        (generateSection section_name system_prompt inp).1.getLast? =
          some (Event.section_error section_name
            ("Failed to generate " ++ section_name ++ ": " ++ e))) ∧
      ((inp.llmStream system_prompt
          (mkUserMessage (contextTextOf section_name items) section_name)).fails = false →
        (generateSection section_name system_prompt inp).2 = [] ∧
        (generateSection section_name system_prompt inp).1.filter isSE = [])) ∧
    (∀ e ∈ (generateSection section_name system_prompt inp).1,
      eventSection e = some section_name) := by
  refine ⟨?_, ?_, generateSection_events_section section_name system_prompt inp⟩
  · intro e he
    exact generateSection_retrieval_error section_name system_prompt inp e he
  · intro items hret
    have hcases := generateSection_ok_cases section_name system_prompt inp items hret
    by_cases hf : (inp.llmStream system_prompt
        (mkUserMessage (contextTextOf section_name items) section_name)).fails = true
    · refine ⟨?_, ?_, ?_, ?_⟩
      · rw [if_pos hf]
        cases hinv : inp.llmInvoke system_prompt
            (mkUserMessage (contextTextOf section_name items) section_name) with
        | ok content => rw [(hcases.1 hf).1 content hinv]
        | error msg => rw [(hcases.1 hf).2 msg hinv]
      · intro content hf2 hinv
        rw [(hcases.1 hf).1 content hinv]
        constructor
        · exact getLast?_cons_concat _ _ _
        · simp only [List.filter_cons, List.filter_append, isSE,
            filter_isSE_tokenEvents]
          rfl
      · intro e hf2 hinv
        rw [(hcases.1 hf).2 e hinv]
        exact getLast?_cons_concat _ _ _
      · intro hf2
        rw [hf2] at hf
        simp at hf
    · have hf2 : (inp.llmStream system_prompt
          (mkUserMessage (contextTextOf section_name items) section_name)).fails = false := by
        simpa using hf
      refine ⟨?_, ?_, ?_, ?_⟩
      · rw [if_neg hf, hcases.2 hf2]
      · intro content hc
        rw [hc] at hf2
        simp at hf2
      · intro e hc
        rw [hc] at hf2
        simp at hf2
      · intro _
        rw [hcases.2 hf2]
        refine ⟨rfl, ?_⟩
        simp only [List.filter_cons, List.filter_append, isSE,
          filter_isSE_tokenEvents]
        rfl

/-- Witness for claim C6 at concrete inputs: a stream that yields two
deltas and then fails, with a succeeding fallback; the trace ends with
section_complete carrying the fallback text and holds no section_error. -/
theorem stream_failure_single_fallback_witness :
    inpFallback.retrieval = Except.ok [] ∧
    (inpFallback.llmStream "p"
      (mkUserMessage (contextTextOf "risks" []) "risks")).fails = true ∧
    inpFallback.llmInvoke "p" (mkUserMessage (contextTextOf "risks" []) "risks") =
      Except.ok "fallback text" ∧
    (generateSection "risks" "p" inpFallback).1.getLast? =
      some (Event.section_complete "risks" "fallback text") :=
  ⟨rfl, rfl, rfl,
    (((stream_failure_single_fallback "risks" "p" inpFallback).2.1 [] rfl).2.1
      "fallback text" rfl rfl).1⟩

/-- Claim C10: when the stream succeeds, the trace is section_start, the
token events, then section_complete; every token event carries an
accumulated_content equal to the concatenation of the content deltas of the
token events emitted up to and including it, and the section_complete
content equals the full accumulated text. -/
theorem token_accumulation_invariant (section_name system_prompt : String)
    (inp : SectionInputs) (items : List ContextItem)
    (hret : inp.retrieval = Except.ok items)
    (hok : (inp.llmStream system_prompt
      (mkUserMessage (contextTextOf section_name items) section_name)).fails = false) :
    (generateSection section_name system_prompt inp).1 =
      Event.section_start section_name ::
        tokenEvents section_name ""
          (inp.llmStream system_prompt
            (mkUserMessage (contextTextOf section_name items) section_name)).chunks ++
        [Event.section_complete section_name
          (accumulate ""
            (inp.llmStream system_prompt
              (mkUserMessage (contextTextOf section_name items) section_name)).chunks)] ∧
    (∀ (chunks : List String) (i : Nat) (e : Event),
      (tokenEvents section_name "" chunks).get? i = some e →
      ∃ c a, e = Event.token section_name c a ∧
        a = concatAll (tokenContents ((tokenEvents section_name "" chunks).take (i + 1)))) ∧
    (∀ chunks : List String,
      accumulate "" chunks = concatAll (tokenContents (tokenEvents section_name "" chunks))) := by
  refine ⟨?_, ?_, ?_⟩
  · exact congrArg Prod.fst
      ((generateSection_ok_cases section_name system_prompt inp items hret).2 hok)
  · intro chunks i e hge
    obtain ⟨c, a, hEq, ha⟩ := @tokenEvents_get_general section_name chunks "" i e hge
    exact ⟨c, a, hEq, by rw [ha, str_empty_append]⟩
  · intro chunks
    rw [@accumulate_general section_name chunks "", str_empty_append]

/-- Witness for claim C10 at concrete inputs: a two-delta stream; the
accumulated buffer equals the concatenation of the emitted deltas. -/
theorem token_accumulation_invariant_witness :
    inpStreamOk.retrieval = Except.ok [] ∧
    (inpStreamOk.llmStream "p"
      (mkUserMessage (contextTextOf "risks" []) "risks")).fails = false ∧
    accumulate "" ["Hello ", "world"] =
      concatAll (tokenContents (tokenEvents "risks" "" ["Hello ", "world"])) :=
  ⟨rfl, rfl,
    (token_accumulation_invariant "risks" "p" inpStreamOk [] rfl rfl).2.2
      ["Hello ", "world"]⟩

/-- Claim C1, counterexample: a run in which no queue event arrives within
the wait window (the spec's own scenario D, with S the seven sections)
emits zero section_complete or section_error events instead of seven, and
emits both a fatal timeout error and a complete event, the complete event
last — so the stream does not contain |S| section-done events, and it does
not contain exactly one complete-or-fatal event with the terminal event
last as the claim states. -/
theorem timeout_run_violates_single_terminal :
    generate_icf_streaming searchEmpty "PROTO-1" [] =
      [Event.error timeoutMessage, Event.complete 7 0 []] ∧
    countSC (generate_icf_streaming searchEmpty "PROTO-1" []) +
      countSE (generate_icf_streaming searchEmpty "PROTO-1" []) = 0 ∧
    ((generate_icf_streaming searchEmpty "PROTO-1" []).filter
      (fun e => isCompleteEv e || isFatal e)).length = 2 ∧
    (generate_icf_streaming searchEmpty "PROTO-1" []).getLast? =
      some (Event.complete 7 0 []) :=
  ⟨rfl, rfl, rfl, rfl⟩

/-- Claim C1, amended: every run (whose initial retrieval succeeds and
whose queue receives only section-generator events) emits exactly one
complete event, always last; at most one fatal error event may additionally
precede it.  Only section_complete events count toward the seven needed for
normal termination: with at least seven arriving, the stream holds exactly
seven of them and no fatal event; with fewer, a single fatal timeout event
is emitted and the complete event still follows it, carrying the
section_complete count. -/
theorem streaming_complete_event_contract (search : SearchFn) (collection : String)
    (incoming : List Event) (ctx : List Hit)
    (hsearch : search collection initialQuery 10 = Except.ok ctx)
    (hnc : ∀ e ∈ incoming, isCompleteEv e = false)
    (hnf : ∀ e ∈ incoming, isFatal e = false) :
    ((generate_icf_streaming search collection incoming).filter isCompleteEv) =
      [Event.complete 7 (drainEvents 7 0 incoming).2 []] ∧
    (generate_icf_streaming search collection incoming).getLast? =
      some (Event.complete 7 (drainEvents 7 0 incoming).2 []) ∧
    (7 ≤ countSC incoming →
      ((generate_icf_streaming search collection incoming).filter isFatal = [] ∧
       countSC (generate_icf_streaming search collection incoming) = 7 ∧
       (drainEvents 7 0 incoming).2 = 7)) ∧
    (countSC incoming < 7 →
      ((generate_icf_streaming search collection incoming).filter isFatal =
        [Event.error timeoutMessage] ∧
       (drainEvents 7 0 incoming).2 = countSC incoming)) := by
  have hout : generate_icf_streaming search collection incoming =
      (drainEvents 7 0 incoming).1 ++
        [Event.complete 7 (drainEvents 7 0 incoming).2 []] := by
    unfold generate_icf_streaming get_protocol_context
    rw [hsearch]
  refine ⟨?_, ?_, ?_, ?_⟩
  · rw [hout, List.filter_append, drain_no_complete 7 incoming 0 hnc]
    rfl
  · rw [hout]
    exact List.getLast?_concat _
  · intro h7
    obtain ⟨f1, f2, f3⟩ := drain_enough 7 incoming 0 hnf (by omega) (by omega)
    refine ⟨?_, ?_, f3⟩
    · rw [hout, List.filter_append, f1]
      rfl
    · rw [hout]
      unfold countSC
      rw [List.filter_append]
      unfold countSC at f2
      simp [f2, isSC]
  · intro hlt
    obtain ⟨f1, f2, f3⟩ := drain_timeout 7 incoming 0 hnf (by omega)
    refine ⟨?_, by simpa using f3⟩
    rw [hout, List.filter_append, f1]
    rfl

/-- Witness for the amended claim C1 at the scenario-C arrival list: six
section_complete events and one section_error arrive, and the run still
ends with a complete event as its last element. -/
theorem streaming_complete_event_contract_witness :
    searchEmpty "PROTO-1" initialQuery 10 = Except.ok [] ∧
    (∀ e ∈ scenarioC, isCompleteEv e = false) ∧
    (∀ e ∈ scenarioC, isFatal e = false) ∧
    (generate_icf_streaming searchEmpty "PROTO-1" scenarioC).getLast? =
      some (Event.complete 7 (drainEvents 7 0 scenarioC).2 []) :=
  ⟨rfl, by decide, by decide,
    (streaming_complete_event_contract searchEmpty "PROTO-1" scenarioC [] rfl
      (by decide) (by decide)).2.1⟩

/-- Claim C2 (code bug): at the spec's scenario C (six sections complete,
the benefits section reports section_error), the drain loop never counts
the section_error, so the run stalls until the timeout, emits a fatal
timeout error, and ends with a complete event whose completed_sections is
6 (not 7) and whose errors list is empty (not listing the message) — the
run is fatal, contradicting the claim. -/
theorem section_error_stalls_drain_loop :
    generate_icf_streaming searchEmpty "PROTO-1" scenarioC =
      scenarioC ++ [Event.error timeoutMessage, Event.complete 7 6 []] ∧
    countSC scenarioC = 6 ∧ countSE scenarioC = 1 :=
  ⟨rfl, rfl, rfl⟩

/-- Claim C3 (code bug): the regeneration endpoint passes the
sections_filter keyword argument, which the streaming service does not
accept, so for a known section and an existing collection the call raises
TypeError and the stream is a single generic error event: it contains no
section_start and no event for the requested section, and the coordinator
is never reached. -/
theorem regenerate_section_raises_type_error :
    kwargsAccepted generate_icf_streaming_params regenerate_call_kwargs = false ∧
    ∀ streamed : List Event,
      regenerate_icf_section (Except.ok ["PROTO-1"]) "PROTO-1" "risks" streamed =
        [SSE.error ("Generation failed: " ++ unexpectedKwargMsg)] ∧
      ((regenerate_icf_section (Except.ok ["PROTO-1"]) "PROTO-1" "risks" streamed).filter
        isSSEStart) = [] :=
  ⟨rfl, fun _ => ⟨rfl, rfl⟩⟩

/-- Witness for claim C3 at a concrete service stream: even a stream that
would carry a section_start for the requested section is never consulted —
the output is the single TypeError-derived error event. -/
theorem regenerate_section_raises_type_error_witness :
    regenerate_icf_section (Except.ok ["PROTO-1"]) "PROTO-1" "risks"
      [Event.section_start "risks"] =
      [SSE.error ("Generation failed: " ++ unexpectedKwargMsg)] :=
  (regenerate_section_raises_type_error.2 [Event.section_start "risks"]).1

/-- Claim C4, counterexample: a workflow run in which six of the seven
sections produced output and only the benefits section produced none makes
the synchronous wrapper raise (a missing-sections error), even though six
sections succeeded — contradicting the claim that it raises only when zero
sections produced output. -/
theorem partial_success_still_raises :
    generate_icf_sync "PROTO-1" (Except.ok []) resSixOfSeven =
      Except.error "Failed to generate ICF: Missing required ICF sections: benefits" ∧
    (collectSections resSixOfSeven).length = 6 ∧
    isOkE (generate_icf_sync "PROTO-1" (Except.ok []) resSixOfSeven) = false :=
  ⟨rfl, rfl, rfl⟩

/-- Claim C4, amended: the synchronous wrapper raises exactly when at least
one of the seven required sections produced no output; when every section
produced output it returns the outcome with an empty errors list and status
completed (so the completed_with_warnings status is unreachable through
this path, since any recorded error implies a missing section and hence a
raise). -/
theorem sync_generation_raises_iff_missing_section (collection : String)
    (res : String → List String) :
    (isOkE (generate_icf_sync collection (Except.ok []) res) = true ↔
      ∀ s ∈ icf_sections, res s ≠ []) ∧
    (∀ out, generate_icf_sync collection (Except.ok []) res = Except.ok out →
      out.errors = [] ∧ out.status = "completed") ∧
    (∀ msg, generate_icf_sync collection (Except.ok []) res = Except.error msg →
      ∃ s ∈ icf_sections, res s = []) := by
  have key := missing_isEmpty_iff res
  refine ⟨?_, ?_, ?_⟩
  · constructor
    · intro hok
      by_cases hm : (missingSections (collectSections res)).isEmpty = true
      · exact key.mp hm
      · exfalso
        unfold generate_icf_sync isOkE at hok
        rw [if_neg hm] at hok
        simp at hok
    · intro hall
      have hm := key.mpr hall
      unfold generate_icf_sync isOkE
      rw [if_pos hm]
  · intro out hout
    by_cases hm : (missingSections (collectSections res)).isEmpty = true
    · have hall := key.mp hm
      have herr := collectErrors_nil res hall
      unfold generate_icf_sync at hout
      rw [if_pos hm] at hout
      have hrec := (Except.ok.injEq _ _).mp hout
      rw [← hrec]
      constructor
      · exact herr
      · show (if (collectErrors res).isEmpty then "completed"
          else "completed_with_warnings") = "completed"
        rw [herr]
        rfl
    · exfalso
      unfold generate_icf_sync at hout
      rw [if_neg hm] at hout
      exact Except.noConfusion hout
  · intro msg hmsg
    by_cases hm : (missingSections (collectSections res)).isEmpty = true
    · exfalso
      unfold generate_icf_sync at hmsg
      rw [if_pos hm] at hmsg
      exact Except.noConfusion hmsg
    · by_contra hno
      push_neg at hno
      exact hm (key.mpr hno)

/-- Witness for the amended claim C4: with all seven sections producing
output, the wrapper returns the outcome with empty errors and status
completed. -/
theorem sync_generation_raises_iff_missing_section_witness :
    generate_icf_sync "PROTO-1" (Except.ok []) resAllSeven = Except.ok outAll ∧
    outAll.errors = [] ∧ outAll.status = "completed" :=
  ⟨rfl,
    (sync_generation_raises_iff_missing_section "PROTO-1" resAllSeven).2.1 outAll rfl⟩

/-- Claim C5: when the named collection does not exist, the full-generation
endpoint emits exactly one fatal error event, no section_start events, and
its output does not depend on what the generation service would have
streamed — no section-generation task is started. -/
theorem missing_index_single_fatal_no_tasks (collections : Except String (List String))
    (collection : String)
    (h : validate_collection_exists collections collection = false) :
    ∀ streamed : List Event,
      generate_icf_stream collections collection streamed =
        [SSE.error (notFoundMsg collection)] ∧
      ((generate_icf_stream collections collection streamed).filter isSSEStart) = [] ∧
      ∀ streamed2, generate_icf_stream collections collection streamed =
        generate_icf_stream collections collection streamed2 := by
  have hmain : ∀ s : List Event,
      generate_icf_stream collections collection s = [SSE.error (notFoundMsg collection)] := by
    intro s
    unfold generate_icf_stream
    rw [h]
    rfl
  intro streamed
  refine ⟨hmain streamed, ?_, fun s2 => by rw [hmain streamed, hmain s2]⟩
  rw [hmain streamed]
  rfl

/-- Witness for claim C5 at the spec's scenario B: collection PROTO-2 does
not exist; the stream is the single not-found error event. -/
theorem missing_index_single_fatal_no_tasks_witness :
    validate_collection_exists (Except.ok []) "PROTO-2" = false ∧
    generate_icf_stream (Except.ok []) "PROTO-2" [] =
      [SSE.error (notFoundMsg "PROTO-2")] :=
  ⟨rfl, (missing_index_single_fatal_no_tasks (Except.ok []) "PROTO-2" rfl []).1⟩

end VibeICF
